import Mathlib

/-!
Verification of the Interest-Calculator backend (FastAPI + Google Sheets
gateway) against its natural-language specification.

The development shallowly embeds the Python sources:
  * `app/models.py`        — request validation (`CalculateRequest`)
  * `app/services/google_sheets.py` — the spreadsheet Gateway
    (`GoogleSheetsService`: `authenticate`, `write_inputs`, `read_outputs`,
    `calculate_interest`, `verify_sheet_structure`)
  * `app/main.py`          — app state (`get_sheets_service`, `lifespan`)
    and the `POST /calculate` route with its exception handlers.

Numbers are modelled as rationals.  The remote spreadsheet service is a
`World`: a flag for credential validity, a flag for whether the target
spreadsheet opens, and the spreadsheet itself (a list of worksheet titles
plus a cell-content map).  Remote interaction is made observable through a
trace of `Event`s (cell writes, cell reads, the fixed recalculation sleep,
and connection attempts).
-/

namespace InterestCalc

/-- Content of one remote spreadsheet cell: empty, free text, or a number
(gspread `update_acell` stores the written numeric value). -/
inductive CellData where
  | blank : CellData
  | text : String → CellData
  | number : Rat → CellData
deriving DecidableEq, Repr

/-- Numeric value of a digit list read left to right. -/
def digitsVal (cs : List Char) : Nat :=
  cs.foldl (fun a c => 10 * a + (c.toNat - 48)) 0

/-- Decimal number parser modelling Python `float(raw)` on the cell strings
this service reads: optional sign, digits, optional decimal point.  Returns
`none` when the string is not a decimal numeral (Python raises
`ValueError`). -/
def parseNum (s : String) : Option Rat :=
  let cs := s.data
  let signed : Int × List Char :=
    match cs with
    | '-' :: rest => (-1, rest)
    | '+' :: rest => (1, rest)
    | _ => (1, cs)
  match (signed.2).splitOn '.' with
  | [ip] =>
      if ip ≠ [] ∧ ip.all Char.isDigit then
        some (mkRat (signed.1 * (digitsVal ip : Int)) 1)
      else none
  | [ip, fp] =>
      if (ip ≠ [] ∨ fp ≠ []) ∧ ip.all Char.isDigit ∧ fp.all Char.isDigit then
        some (mkRat
          (signed.1 * ((digitsVal ip : Int) * (10 : Int) ^ fp.length + (digitsVal fp : Int)))
          ((10 : Nat) ^ fp.length))
      else none
  | _ => none

/-- `float(raw) if raw else 0.0` from `read_outputs`: an empty cell (or empty
string) is treated as 0.0; text must parse as a number; a numeric cell is
its value. -/
def parseCell : CellData → Option Rat
  | CellData.blank => some 0
  | CellData.text s => if s = "" then some 0 else parseNum s
  | CellData.number q => some q

/-- The remote spreadsheet: its worksheet titles and the content of every
cell, addressed by (worksheet title, cell address). -/
structure Spreadsheet where
  sheetNames : List String
  cells : String → String → CellData

/-- Write one cell of one worksheet (gspread `update_acell`). -/
def Spreadsheet.updateCell (s : Spreadsheet) (name cell : String) (v : CellData) : Spreadsheet :=
  { s with cells := fun n c => if n = name ∧ c = cell then v else s.cells n c }

/-- The external world the Gateway talks to: whether the service-account
credentials load and authorize, whether the target spreadsheet can be
opened, and the spreadsheet content. -/
structure World where
  credsValid : Bool
  sheetOpenable : Bool
  sheet : Spreadsheet

/-- Observable remote interaction of the Gateway. -/
inductive Event where
  | connect : Event
  | writeCell : String → String → Rat → Event
  | sleepFor : Rat → Event
  | readCell : String → String → Event
deriving DecidableEq, Repr

/-- Error taxonomy of the Gateway, one constructor per `raise` site of
`google_sheets.py` (the Python code raises bare `Exception`s; the kind
records which site fired, the message field is reconstructed by
`GatewayError.message`). -/
inductive GatewayError where
  | notConnected : GatewayError
  | authFailureCreds : GatewayError
  | authFailureOpen : GatewayError
  | structureError : String → GatewayError
  | parseError : String → String → String → GatewayError
deriving DecidableEq, Repr

/-- The message string each error surfaces with, as built by the Python
`raise Exception(...)` sites (parse errors are re-wrapped by the generic
handler of `read_outputs`; worksheet-not-found errors escape unwrapped
because they are raised inside an `except` clause of the same `try`). -/
def GatewayError.message : GatewayError → String
  | GatewayError.notConnected => "Not authenticated. Call authenticate() first."
  | GatewayError.authFailureCreds => "Authentication failed"
  | GatewayError.authFailureOpen => "Spreadsheet not found"
  | GatewayError.structureError name =>
      "Worksheet \x27" ++ name ++ "\x27 not found. Please ensure the sheet exists."
  | GatewayError.parseError label cell raw =>
      "Failed to read outputs: Invalid " ++ label ++ " interest value in "
        ++ cell ++ ": " ++ raw

/-- `GoogleSheetsService` state: the two nullable fields set by
`authenticate` (`self.client`, `self.spreadsheet`) plus the constructor
arguments. -/
structure Gateway where
  credentialsPath : String
  sheetId : String
  client : Option Unit
  spreadsheet : Option Unit
deriving DecidableEq, Repr

/-- `GoogleSheetsService.authenticate`: loads credentials, sets
`self.client := gspread.authorize(...)`, then opens the spreadsheet and sets
`self.spreadsheet`.  Mirrors the statement order of the source: when
credential loading/authorization fails nothing is assigned; when it succeeds
but `open_by_key` fails, `client` has already been assigned and stays set.
Every attempt reaches the remote service, hence the `connect` event. -/
def authenticate (gw : Gateway) (w : World) :
    Except GatewayError Unit × Gateway × List Event :=
  if w.credsValid then
    let gw1 : Gateway := { gw with client := some () }
    if w.sheetOpenable then
      (Except.ok (), { gw1 with spreadsheet := some () }, [Event.connect])
    else
      (Except.error GatewayError.authFailureOpen, gw1, [Event.connect])
  else
    (Except.error GatewayError.authFailureCreds, gw, [Event.connect])

/-- `GoogleSheetsService.write_inputs` at its default arguments
(sheet "Input", cells B2/B3/B4, which every caller in the repository uses):
guard `if not self.spreadsheet: raise`, fetch the Input worksheet, write the
three cells, then `sleep(0.5)`.  Returns the outcome, the updated world and
the emitted remote events. -/
def write_inputs (gw : Gateway) (w : World) (principal rate time : Rat) :
    Except GatewayError Unit × World × List Event :=
  match gw.spreadsheet with
  | none => (Except.error GatewayError.notConnected, w, [])
  | some _ =>
    if "Input" ∈ w.sheet.sheetNames then
      let s1 := w.sheet.updateCell "Input" "B2" (CellData.number principal)
      let s2 := s1.updateCell "Input" "B3" (CellData.number rate)
      let s3 := s2.updateCell "Input" "B4" (CellData.number time)
      (Except.ok (), { w with sheet := s3 },
        [Event.writeCell "Input" "B2" principal,
         Event.writeCell "Input" "B3" rate,
         Event.writeCell "Input" "B4" time,
         Event.sleepFor (1 / 2)])
    else
      (Except.error (GatewayError.structureError "Input"), w, [])

/-- String interpolation of a raw cell value into an error message
(Python f-string rendering of the value `acell(...).value` returned). -/
def rawText : CellData → String
  | CellData.blank => "None"
  | CellData.text s => s
  | CellData.number q => toString q

/-- Result pair returned by `read_outputs` / `calculate_interest`. -/
structure InterestResult where
  simpleInterest : Rat
  compoundInterest : Rat
deriving DecidableEq, Repr

/-- `GoogleSheetsService.read_outputs` at its default arguments
(sheet "Output", cells B2/B3): guard on `self.spreadsheet`, fetch the Output
worksheet, read both cells, then parse simple interest first and compound
interest second (empty reads as 0.0, unparsable text raises). -/
def read_outputs (gw : Gateway) (w : World) :
    Except GatewayError InterestResult × List Event :=
  match gw.spreadsheet with
  | none => (Except.error GatewayError.notConnected, [])
  | some _ =>
    if "Output" ∈ w.sheet.sheetNames then
      let siRaw := w.sheet.cells "Output" "B2"
      let ciRaw := w.sheet.cells "Output" "B3"
      let evs := [Event.readCell "Output" "B2", Event.readCell "Output" "B3"]
      match parseCell siRaw with
      | none =>
          (Except.error (GatewayError.parseError "simple" "B2" (rawText siRaw)), evs)
      | some si =>
        match parseCell ciRaw with
        | none =>
            (Except.error (GatewayError.parseError "compound" "B3" (rawText ciRaw)), evs)
        | some ci => (Except.ok ⟨si, ci⟩, evs)
    else
      (Except.error (GatewayError.structureError "Output"), [])

/-- `GoogleSheetsService.calculate_interest`: lazy connect
(`if not self.client: self.authenticate()`), then `write_inputs`, then
`read_outputs`.  Returns outcome, updated gateway, updated world and the
concatenated event trace. -/
def calculate_interest (gw : Gateway) (w : World) (principal rate time : Rat) :
    Except GatewayError InterestResult × Gateway × World × List Event :=
  match gw.client with
  | none =>
    let a := authenticate gw w
    match a.1 with
    | Except.error e => (Except.error e, a.2.1, w, a.2.2)
    | Except.ok _ =>
      let wr := write_inputs a.2.1 w principal rate time
      match wr.1 with
      | Except.error e => (Except.error e, a.2.1, wr.2.1, a.2.2 ++ wr.2.2)
      | Except.ok _ =>
        let rd := read_outputs a.2.1 wr.2.1
        (rd.1, a.2.1, wr.2.1, a.2.2 ++ wr.2.2 ++ rd.2)
  | some _ =>
    let wr := write_inputs gw w principal rate time
    match wr.1 with
    | Except.error e => (Except.error e, gw, wr.2.1, wr.2.2)
    | Except.ok _ =>
      let rd := read_outputs gw wr.2.1
      (rd.1, gw, wr.2.1, wr.2.2 ++ rd.2)

/-- The three worksheet titles `verify_sheet_structure` requires, in the
order the source lists them. -/
def requiredSheets : List String := ["Input", "Calc", "Output"]

/-- The subset of `requiredSheets` absent from the spreadsheet, in required
order (the Python list comprehension
`[s for s in required_sheets if s not in existing_sheets]`). -/
def missingSheets (w : World) : List String :=
  requiredSheets.filter (fun s => ¬ s ∈ w.sheet.sheetNames)

/-- `GoogleSheetsService.verify_sheet_structure`: returns a `(success,
message)` pair.  When not authenticated it returns `(False, "Not
authenticated")` — it does not raise.  Otherwise success iff no required
sheet is missing, with the failure message listing the missing titles. -/
def verify_sheet_structure (gw : Gateway) (w : World) : Bool × String :=
  match gw.spreadsheet with
  | none => (false, "Not authenticated")
  | some _ =>
    let missing := missingSheets w
    if missing.isEmpty then
      (true, "Sheet structure verified successfully")
    else
      (false, "Missing required sheets: " ++ String.intercalate ", " missing)

/-!
## Request validation (`app/models.py`, `CalculateRequest`)

Pydantic validates each field independently: the `Field` range constraints
(`gt=0` on all three fields, `le=100` on `rate`) run before the custom
`field_validator`s, so a field outside its range is reported with the pydantic
constraint message; every error carries the offending field name as its
location.  The custom validators return the value unchanged, so an accepted
request carries the three values exactly as received.
-/

/-- One validation error: (field name, message). -/
abbrev FieldError := String × String

/-- The list of per-field validation errors pydantic produces for a
`CalculateRequest` body, in field declaration order. -/
def fieldErrors (principal rate time : Rat) : List FieldError :=
  (if principal ≤ 0 then [("principal", "Input should be greater than 0")] else [])
    ++ (if rate ≤ 0 then [("rate", "Input should be greater than 0")]
        else if 100 < rate then [("rate", "Input should be less than or equal to 100")]
        else [])
    ++ (if time ≤ 0 then [("time", "Input should be greater than 0")] else [])

/-- The validator as a function: accepts (returning the three values
unchanged, as the pydantic validators do) iff no field error fires. -/
def validateRequest (principal rate time : Rat) :
    Except (List FieldError) (Rat × Rat × Rat) :=
  if (fieldErrors principal rate time).isEmpty then
    Except.ok (principal, rate, time)
  else
    Except.error (fieldErrors principal rate time)

/-!
## Application layer (`app/main.py`, `app/config.py`)
-/

/-- Environment-sourced settings relevant to the Gateway lifecycle
(`config.py`): the spreadsheet id, the configured credentials path and
whether a file exists there. -/
structure Config where
  sheetId : String
  credsPath : String
  credsFileExists : Bool

/-- `Settings.validate` (`config.py`): startup fails when the sheet id is
unset or the credentials file is missing. -/
def settingsValidate (cfg : Config) : Except String Unit :=
  if cfg.sheetId = "" then
    Except.error "GOOGLE_SHEET_ID environment variable is not set"
  else if ¬ cfg.credsFileExists then
    Except.error ("Google credentials file not found at: " ++ cfg.credsPath)
  else
    Except.ok ()

/-- `GoogleSheetsService.__init__`: rejects an empty sheet id, requires the
credentials file to exist, and otherwise yields a Gateway with both nullable
handles unset (Disconnected). -/
def serviceInit (cfg : Config) : Except String Gateway :=
  if cfg.sheetId = "" then
    Except.error "Sheet ID cannot be empty"
  else if ¬ cfg.credsFileExists then
    Except.error ("Credentials file not found: " ++ cfg.credsPath)
  else
    Except.ok ⟨cfg.credsPath, cfg.sheetId, none, none⟩

/-- The module-level `sheets_service` global of `main.py`. -/
abbrev AppState := Option Gateway

/-- `get_sheets_service` (`main.py`): returns the stored instance if one
exists; otherwise constructs the service and authenticates.  Mirrors the
Python statement order: the global is assigned as soon as the constructor
returns, so a subsequent `authenticate` failure leaves the
constructed-but-unconnected instance stored.  Failures surface as an
`HTTPException(500, "Failed to initialize Google Sheets service: ...")`,
modelled by the error string. -/
def get_sheets_service (cfg : Config) (st : AppState) (w : World) :
    Except String Gateway × AppState × List Event :=
  match st with
  | some svc => (Except.ok svc, some svc, [])
  | none =>
    match serviceInit cfg with
    | Except.error e =>
        (Except.error ("Failed to initialize Google Sheets service: " ++ e), none, [])
    | Except.ok gw0 =>
      let a := authenticate gw0 w
      match a.1 with
      | Except.ok _ => (Except.ok a.2.1, some a.2.1, a.2.2)
      | Except.error e =>
          (Except.error ("Failed to initialize Google Sheets service: "
             ++ GatewayError.message e), some a.2.1, a.2.2)

/-- The `lifespan` startup hook (`main.py`): validates the settings, then
eagerly invokes `get_sheets_service()` — before any client request — and
aborts startup on failure. -/
def startup (cfg : Config) (w : World) : Except String AppState × List Event :=
  match settingsValidate cfg with
  | Except.error e => (Except.error e, [])
  | Except.ok _ =>
    let g := get_sheets_service cfg none w
    match g.1 with
    | Except.error e => (Except.error e, g.2.2)
    | Except.ok _ => (Except.ok g.2.1, g.2.2)

/-- Round-half-to-even on rationals, the rounding the Python builtin `round`
uses, computed on the numerator and denominator: `f` is the floor and `r`
the remainder, so the fractional part is `r / den`. -/
def roundHalfEven (q : Rat) : Int :=
  let f := q.num.fdiv (q.den : Int)
  let r := q.num - f * (q.den : Int)
  if 2 * r < (q.den : Int) then f
  else if (q.den : Int) < 2 * r then f + 1
  else if f % 2 = 0 then f else f + 1

/-- Python `round(x, 2)` as used on the response fields:
`roundHalfEven (q * 100) / 100`, with the scaling done on the numerator. -/
def round2 (q : Rat) : Rat := mkRat (roundHalfEven (mkRat (q.num * 100) q.den)) 100

/-- Body of an HTTP response of the `/calculate` route.
`calcOk` is the success model; `errorOnly` is what the registered
`http_exception_handler` produces (`content = \x7b"error": exc.detail\x7d`,
no `detail` key); `errorDetail` is the shape of the catch-all
`general_exception_handler`; `validationDetail` is the FastAPI default
`RequestValidationError` body (a `detail` list of per-field errors). -/
inductive ResponseBody where
  | calcOk : Rat → Rat → Rat → Rat → Rat → ResponseBody
  | errorOnly : String → ResponseBody
  | errorDetail : String → String → ResponseBody
  | validationDetail : List FieldError → ResponseBody
deriving DecidableEq, Repr

/-- An HTTP response: status code and body. -/
structure HttpResponse where
  statusCode : Nat
  body : ResponseBody
deriving DecidableEq, Repr

/-- `POST /calculate` (`main.py`) applied to a JSON body with numeric
fields.  FastAPI validates the body against `CalculateRequest` before the
handler runs; a validation failure is answered by the FastAPI default
`RequestValidationError` handler with status 422 (no override is
registered — the route `except ValueError` branch is upstream of nothing,
body validation never reaches it).  Inside the handler, any exception from
`get_sheets_service` or `calculate_interest` is re-raised as
`HTTPException(500, "Calculation failed: ...")`, which the registered
`http_exception_handler` renders as status 500 with body
`\x7b"error": exc.detail\x7d`.  On success the response echoes the request
fields and rounds both interests to 2 decimal places. -/
def route_calculate (cfg : Config) (st : AppState) (w : World)
    (principal rate time : Rat) :
    HttpResponse × AppState × World × List Event :=
  if (fieldErrors principal rate time).isEmpty then
    let g := get_sheets_service cfg st w
    match g.1 with
    | Except.error e =>
        (⟨500, ResponseBody.errorOnly ("Calculation failed: 500: " ++ e)⟩,
          g.2.1, w, g.2.2)
    | Except.ok svc =>
      let c := calculate_interest svc w principal rate time
      match c.1 with
      | Except.error e =>
          (⟨500, ResponseBody.errorOnly ("Calculation failed: " ++ GatewayError.message e)⟩,
            some c.2.1, c.2.2.1, g.2.2 ++ c.2.2.2)
      | Except.ok res =>
          (⟨200, ResponseBody.calcOk (round2 res.simpleInterest)
              (round2 res.compoundInterest) principal rate time⟩,
            some c.2.1, c.2.2.1, g.2.2 ++ c.2.2.2)
  else
    (⟨422, ResponseBody.validationDetail (fieldErrors principal rate time)⟩,
      st, w, [])

/-!
## Concrete fixtures used by witnesses and counterexamples
-/

/-- A well-formed remote spreadsheet: all three required worksheets, Output
B2/B3 holding the values of the specification example. -/
def sampleSheet : Spreadsheet :=
  ⟨["Input", "Calc", "Output"],
   fun n c =>
     if n = "Output" ∧ c = "B2" then CellData.text "1650"
     else if n = "Output" ∧ c = "B3" then CellData.text "1742.41"
     else CellData.blank⟩

/-- World with valid credentials, openable spreadsheet, well-formed sheet. -/
def wGood : World := ⟨true, true, sampleSheet⟩

/-- World whose credentials fail to load/authorize. -/
def wCredsFail : World := ⟨false, true, sampleSheet⟩

/-- World where authorization succeeds but the spreadsheet cannot be
opened. -/
def wOpenFail : World := ⟨true, false, sampleSheet⟩

/-- World whose spreadsheet is missing the Output worksheet. -/
def wNoOutput : World := ⟨true, true, ⟨["Input", "Calc"], fun _ _ => CellData.blank⟩⟩

/-- World whose spreadsheet is missing exactly the Calc worksheet (the
example of the specification). -/
def wMissingCalc : World := ⟨true, true, ⟨["Input", "Output"], fun _ _ => CellData.blank⟩⟩

/-- A fully connected Gateway (client and spreadsheet handles set). -/
def gwConn : Gateway := ⟨"creds.json", "sheet1", some (), some ()⟩

/-- A fully disconnected Gateway (fresh from the constructor). -/
def gwDisc : Gateway := ⟨"creds.json", "sheet1", none, none⟩

/-- A half-connected Gateway: client handle set, no spreadsheet handle (the
state a failed `open_by_key` leaves behind). -/
def gwHalf : Gateway := ⟨"creds.json", "sheet1", some (), none⟩

/-- A valid configuration. -/
def cfgGood : Config := ⟨"sheet1", "creds.json", true⟩

/-!
## Helper lemmas
-/

/-- Updating one cell leaves the cells of every other sheet untouched. -/
theorem updateCell_cells_of_ne_sheet (s : Spreadsheet) (name cell n c : String)
    (v : CellData) (h : n ≠ name) :
    (s.updateCell name cell v).cells n c = s.cells n c := by
  simp [Spreadsheet.updateCell, h]

/-- Updating a cell does not change the worksheet list. -/
theorem updateCell_sheetNames (s : Spreadsheet) (name cell : String) (v : CellData) :
    (s.updateCell name cell v).sheetNames = s.sheetNames := rfl

/-!
## Claims
-/

/-- C2: for principal>0, rate in (0,100], time>0 the validator accepts and
returns the three values unchanged (it is a pure function, so it has no side
effects); for principal≤0, rate≤0, rate>100 or time≤0 it rejects with an
error list containing an entry that names the offending field. -/
theorem C2_validator_contract (p r t : Rat) :
    (0 < p ∧ 0 < r ∧ r ≤ 100 ∧ 0 < t →
        validateRequest p r t = Except.ok (p, r, t))
  ∧ (p ≤ 0 → validateRequest p r t = Except.error (fieldErrors p r t)
      ∧ ("principal", "Input should be greater than 0") ∈ fieldErrors p r t)
  ∧ (r ≤ 0 → validateRequest p r t = Except.error (fieldErrors p r t)
      ∧ ("rate", "Input should be greater than 0") ∈ fieldErrors p r t)
  ∧ (100 < r → validateRequest p r t = Except.error (fieldErrors p r t)
      ∧ ("rate", "Input should be less than or equal to 100") ∈ fieldErrors p r t)
  ∧ (t ≤ 0 → validateRequest p r t = Except.error (fieldErrors p r t)
      ∧ ("time", "Input should be greater than 0") ∈ fieldErrors p r t) := by
  refine ⟨?_, ?_, ?_, ?_, ?_⟩
  · rintro ⟨hp, hr, hr100, ht⟩
    have h1 : ¬ p ≤ 0 := not_le.mpr hp
    have h2 : ¬ r ≤ 0 := not_le.mpr hr
    have h3 : ¬ (100 : Rat) < r := not_lt.mpr hr100
    have h4 : ¬ t ≤ 0 := not_le.mpr ht
    simp [validateRequest, fieldErrors, h1, h2, h3, h4]
  · intro hp
    refine ⟨?_, ?_⟩
    · simp [validateRequest, fieldErrors, hp]
    · simp [fieldErrors, hp]
  · intro hr
    refine ⟨?_, ?_⟩
    · simp [validateRequest, fieldErrors, hr]
    · simp [fieldErrors, hr]
  · intro hr
    have h2 : ¬ r ≤ 0 := not_le.mpr (lt_trans (by norm_num) hr)
    refine ⟨?_, ?_⟩
    · simp [validateRequest, fieldErrors, hr, h2]
    · simp [fieldErrors, hr, h2]
  · intro ht
    refine ⟨?_, ?_⟩
    · simp [validateRequest, fieldErrors, ht]
    · simp [fieldErrors, ht]

/-- Witness for C2: the validator accepts the specification example
request unchanged and rejects a negative principal naming the field. -/
theorem C2_validator_contract_witness :
    validateRequest 10000 (11 / 2) 3 = Except.ok (10000, 11 / 2, 3)
  ∧ (validateRequest (-1) (11 / 2) 3 = Except.error (fieldErrors (-1) (11 / 2) 3)
      ∧ ("principal", "Input should be greater than 0") ∈ fieldErrors (-1) (11 / 2) 3) :=
  ⟨(C2_validator_contract 10000 (11 / 2) 3).1
      ⟨by norm_num, by norm_num, by norm_num, by norm_num⟩,
   (C2_validator_contract (-1) (11 / 2) 3).2.1 (by norm_num)⟩

/-- C3: on a connected Gateway, `verify_sheet_structure` succeeds iff all of
Input, Calc, Output are present; the missing list names a sheet iff it is a
required sheet absent from the spreadsheet (exactly the missing ones, no
others); on failure the message lists exactly that list, and on success it
is the fixed success message. -/
theorem C3_verify_structure (gw : Gateway) (w : World)
    (h : gw.spreadsheet = some ()) :
    ((verify_sheet_structure gw w).1 = true ↔
        "Input" ∈ w.sheet.sheetNames ∧ "Calc" ∈ w.sheet.sheetNames
          ∧ "Output" ∈ w.sheet.sheetNames)
  ∧ (∀ s, s ∈ missingSheets w ↔ s ∈ requiredSheets ∧ ¬ s ∈ w.sheet.sheetNames)
  ∧ (missingSheets w ≠ [] →
        verify_sheet_structure gw w
          = (false, "Missing required sheets: " ++ String.intercalate ", " (missingSheets w)))
  ∧ (missingSheets w = [] →
        verify_sheet_structure gw w = (true, "Sheet structure verified successfully")) := by
  refine ⟨?_, ?_, ?_, ?_⟩
  · by_cases hP : "Input" ∈ w.sheet.sheetNames ∧ "Calc" ∈ w.sheet.sheetNames
        ∧ "Output" ∈ w.sheet.sheetNames
    all_goals
      simp [verify_sheet_structure, h, missingSheets, requiredSheets,
        List.filter_eq_nil_iff, hP]
  · intro s
    simp [missingSheets, List.mem_filter]
  · intro hne
    simp [verify_sheet_structure, h, List.isEmpty_iff, hne]
  · intro he
    simp [verify_sheet_structure, h, List.isEmpty_iff, he]

/-- Witness for C3: on the specification example spreadsheet containing
only Input and Output, verification fails and the message mentions exactly
Calc. -/
theorem C3_verify_structure_witness :
    verify_sheet_structure gwConn wMissingCalc
      = (false, "Missing required sheets: " ++ String.intercalate ", " (missingSheets wMissingCalc))
  ∧ missingSheets wMissingCalc = ["Calc"]
  ∧ verify_sheet_structure gwConn wGood = (true, "Sheet structure verified successfully") :=
  ⟨(C3_verify_structure gwConn wMissingCalc rfl).2.2.1 (by decide),
   by decide,
   (C3_verify_structure gwConn wGood rfl).2.2.2 (by decide)⟩

/-- C4: on a connected Gateway, `read_outputs` fails with the
worksheet-structure error when the Output sheet is missing; an empty output
cell reads as 0.0 (shown for each of the two cells); and a non-empty cell
whose text does not parse as a number fails with the parse error for that
cell. -/
theorem C4_read_outputs (gw : Gateway) (w : World)
    (h : gw.spreadsheet = some ()) :
    (¬ "Output" ∈ w.sheet.sheetNames →
        (read_outputs gw w).1 = Except.error (GatewayError.structureError "Output"))
  ∧ (∀ ci, "Output" ∈ w.sheet.sheetNames →
        w.sheet.cells "Output" "B2" = CellData.blank →
        parseCell (w.sheet.cells "Output" "B3") = some ci →
        (read_outputs gw w).1 = Except.ok ⟨0, ci⟩)
  ∧ (∀ si, "Output" ∈ w.sheet.sheetNames →
        parseCell (w.sheet.cells "Output" "B2") = some si →
        w.sheet.cells "Output" "B3" = CellData.blank →
        (read_outputs gw w).1 = Except.ok ⟨si, 0⟩)
  ∧ (∀ s, "Output" ∈ w.sheet.sheetNames →
        w.sheet.cells "Output" "B2" = CellData.text s → s ≠ "" → parseNum s = none →
        (read_outputs gw w).1 = Except.error (GatewayError.parseError "simple" "B2" s))
  ∧ (∀ si s, "Output" ∈ w.sheet.sheetNames →
        parseCell (w.sheet.cells "Output" "B2") = some si →
        w.sheet.cells "Output" "B3" = CellData.text s → s ≠ "" → parseNum s = none →
        (read_outputs gw w).1 = Except.error (GatewayError.parseError "compound" "B3" s)) := by
  refine ⟨?_, ?_, ?_, ?_, ?_⟩
  · intro hm
    simp [read_outputs, h, hm]
  · intro ci hm hb2 hb3
    have h0 : parseCell (w.sheet.cells "Output" "B2") = some 0 := by rw [hb2]; rfl
    simp [read_outputs, h, hm, h0, hb3]
  · intro si hm hb2 hb3
    have h0 : parseCell (w.sheet.cells "Output" "B3") = some 0 := by rw [hb3]; rfl
    simp [read_outputs, h, hm, hb2, h0]
  · intro s hm hb2 hs hp
    have h0 : parseCell (w.sheet.cells "Output" "B2") = none := by
      rw [hb2]; simp [parseCell, hs, hp]
    have h1 : rawText (w.sheet.cells "Output" "B2") = s := by rw [hb2]; rfl
    simp [read_outputs, h, hm, h0, h1]
  · intro si s hm hb2 hb3 hs hp
    have h0 : parseCell (w.sheet.cells "Output" "B3") = none := by
      rw [hb3]; simp [parseCell, hs, hp]
    have h1 : rawText (w.sheet.cells "Output" "B3") = s := by rw [hb3]; rfl
    simp [read_outputs, h, hm, hb2, h0, h1]

/-- Witness for C4: a blank simple-interest cell reads as 0, a cell holding
"abc" raises the parse error, and a spreadsheet without an Output sheet
raises the structure error. -/
theorem C4_read_outputs_witness :
    (read_outputs gwConn ⟨true, true,
        ⟨["Input", "Calc", "Output"],
         fun n c => if n = "Output" ∧ c = "B3" then CellData.text "7.5"
                    else CellData.blank⟩⟩).1
      = Except.ok ⟨0, mkRat 15 2⟩
  ∧ (read_outputs gwConn ⟨true, true,
        ⟨["Input", "Calc", "Output"],
         fun n c => if n = "Output" ∧ c = "B2" then CellData.text "abc"
                    else CellData.blank⟩⟩).1
      = Except.error (GatewayError.parseError "simple" "B2" "abc")
  ∧ (read_outputs gwConn wNoOutput).1
      = Except.error (GatewayError.structureError "Output") := by
  refine ⟨?_, ?_, ?_⟩
  · exact (C4_read_outputs gwConn ⟨true, true,
        ⟨["Input", "Calc", "Output"],
         fun n c => if n = "Output" ∧ c = "B3" then CellData.text "7.5"
                    else CellData.blank⟩⟩ rfl).2.1 (mkRat 15 2)
        (by decide) (by decide) (by decide)
  · exact (C4_read_outputs gwConn ⟨true, true,
        ⟨["Input", "Calc", "Output"],
         fun n c => if n = "Output" ∧ c = "B2" then CellData.text "abc"
                    else CellData.blank⟩⟩ rfl).2.2.2.1 "abc"
        (by decide) (by decide) (by decide) (by decide)
  · exact (C4_read_outputs gwConn wNoOutput rfl).1 (by decide)

/-- C10: a `write_inputs` call on a Gateway with no spreadsheet handle
returns the not-connected error with an empty remote-event trace and the
world — in particular the Input cells of the remote spreadsheet — exactly
as it was: the failure is atomic with respect to remote state. -/
theorem C10_write_disconnected_atomic (gw : Gateway) (w : World)
    (p r t : Rat) (h : gw.spreadsheet = none) :
    write_inputs gw w p r t = (Except.error GatewayError.notConnected, w, []) := by
  simp [write_inputs, h]

/-- Witness for C10: the fresh disconnected Gateway leaves the world
untouched. -/
theorem C10_write_disconnected_atomic_witness :
    write_inputs gwDisc wGood 10000 (11 / 2) 3
      = (Except.error GatewayError.notConnected, wGood, []) :=
  C10_write_disconnected_atomic gwDisc wGood 10000 (11 / 2) 3 rfl

/-- C5 counterexample: the claim says every non-connect operation,
`verify_sheet_structure` included, fails with `NotConnectedError` in the
Disconnected state.  At a concrete fully disconnected Gateway,
`verify_sheet_structure` instead returns the ordinary value
`(false, "Not authenticated")` — no exception, and not the not-connected
error message — and `calculate_interest` does not fail at all: it silently
performs a fresh connect and succeeds. -/
theorem C5_counterexample :
    verify_sheet_structure gwDisc wGood = (false, "Not authenticated")
  ∧ "Not authenticated" ≠ GatewayError.message GatewayError.notConnected
  ∧ (calculate_interest gwDisc wGood 10000 (mkRat 11 2) 3).1
      = Except.ok ⟨1650, mkRat 174241 100⟩ :=
  ⟨rfl, by decide, rfl⟩

/-- C5 (amended): with no spreadsheet handle, `write_inputs` and
`read_outputs` fail fast with the not-connected error before any remote
call (empty event trace, world untouched); `verify_sheet_structure` also
performs no remote call but reports the condition by returning the failure
result `(false, "Not authenticated")` instead of raising; and
`calculate_interest` on a Gateway whose client handle is set but whose
spreadsheet handle is not fails fast with the not-connected error from its
write step, again before any remote call.  (A Gateway with no client handle
instead attempts a fresh connect, per C1/C6.) -/
theorem C5_disconnected_fail_fast (gw : Gateway) (w : World) (p r t : Rat)
    (h : gw.spreadsheet = none) :
    write_inputs gw w p r t = (Except.error GatewayError.notConnected, w, [])
  ∧ read_outputs gw w = (Except.error GatewayError.notConnected, [])
  ∧ verify_sheet_structure gw w = (false, "Not authenticated")
  ∧ (gw.client = some () →
      calculate_interest gw w p r t = (Except.error GatewayError.notConnected, gw, w, [])) := by
  refine ⟨?_, ?_, ?_, ?_⟩
  · simp [write_inputs, h]
  · simp [read_outputs, h]
  · simp [verify_sheet_structure, h]
  · intro hc
    simp [calculate_interest, hc, write_inputs, h]

/-- Witness for C5: the half-connected Gateway (client set, no spreadsheet
handle) on the good world. -/
theorem C5_disconnected_fail_fast_witness :
    write_inputs gwHalf wGood 10000 (mkRat 11 2) 3
      = (Except.error GatewayError.notConnected, wGood, [])
  ∧ read_outputs gwHalf wGood = (Except.error GatewayError.notConnected, [])
  ∧ verify_sheet_structure gwHalf wGood = (false, "Not authenticated")
  ∧ calculate_interest gwHalf wGood 10000 (mkRat 11 2) 3
      = (Except.error GatewayError.notConnected, gwHalf, wGood, []) := by
  have h := C5_disconnected_fail_fast gwHalf wGood 10000 (mkRat 11 2) 3 rfl
  exact ⟨h.1, h.2.1, h.2.2.1, h.2.2.2 rfl⟩

/-- The world after `write_inputs` has written the three Input cells. -/
def writtenWorld (w : World) (p r t : Rat) : World :=
  { w with
    sheet := ((w.sheet.updateCell "Input" "B2" (CellData.number p)).updateCell
      "Input" "B3" (CellData.number r)).updateCell "Input" "B4" (CellData.number t) }

/-- Helper: on a connected Gateway over a structurally sound spreadsheet
with parseable Output cells, `calculate_interest` returns the parsed pair of
the pre-call Output cells, leaves the Gateway unchanged, writes only the
Input cells, and emits exactly write B2, write B3, write B4, sleep 0.5,
read B2, read B3. -/
theorem calculate_connected_eq (gw : Gateway) (w : World) (p r t si ci : Rat)
    (hc : gw.client = some ()) (hs : gw.spreadsheet = some ())
    (hin : "Input" ∈ w.sheet.sheetNames) (hout : "Output" ∈ w.sheet.sheetNames)
    (hsi : parseCell (w.sheet.cells "Output" "B2") = some si)
    (hci : parseCell (w.sheet.cells "Output" "B3") = some ci) :
    calculate_interest gw w p r t
      = (Except.ok ⟨si, ci⟩, gw, writtenWorld w p r t,
         [Event.writeCell "Input" "B2" p, Event.writeCell "Input" "B3" r,
          Event.writeCell "Input" "B4" t, Event.sleepFor (1 / 2),
          Event.readCell "Output" "B2", Event.readCell "Output" "B3"]) := by
  have hne : ¬ (("Output" : String) = "Input") := by decide
  have hw : write_inputs gw w p r t
      = (Except.ok (), writtenWorld w p r t,
         [Event.writeCell "Input" "B2" p, Event.writeCell "Input" "B3" r,
          Event.writeCell "Input" "B4" t, Event.sleepFor (1 / 2)]) := by
    simp [write_inputs, hs, hin, writtenWorld]
  have e2 : (writtenWorld w p r t).sheet.cells "Output" "B2"
      = w.sheet.cells "Output" "B2" := by
    simp [writtenWorld, Spreadsheet.updateCell, hne]
  have e3 : (writtenWorld w p r t).sheet.cells "Output" "B3"
      = w.sheet.cells "Output" "B3" := by
    simp [writtenWorld, Spreadsheet.updateCell, hne]
  have hm : "Output" ∈ (writtenWorld w p r t).sheet.sheetNames := hout
  have hr : read_outputs gw (writtenWorld w p r t)
      = (Except.ok ⟨si, ci⟩, [Event.readCell "Output" "B2", Event.readCell "Output" "B3"]) := by
    simp [read_outputs, hs, hm, e2, e3, hsi, hci]
  simp [calculate_interest, hc, hw, hr]

/-- C1: on a connected Gateway, `calculate_interest` performs no connect and
exactly the remote sequence write Input!B2 := principal, write Input!B3 :=
rate, write Input!B4 := time, sleep 0.5, read Output!B2, read Output!B3, and
returns the parsed (simpleInterest, compoundInterest) pair.  The returned
pair is the parse of the Output cells as they stood before the call, for
every input triple — the service performs no local interest computation. -/
theorem C1_calculate_sequence (gw : Gateway) (w : World) (p r t si ci : Rat)
    (hc : gw.client = some ()) (hs : gw.spreadsheet = some ())
    (hin : "Input" ∈ w.sheet.sheetNames) (hout : "Output" ∈ w.sheet.sheetNames)
    (hsi : parseCell (w.sheet.cells "Output" "B2") = some si)
    (hci : parseCell (w.sheet.cells "Output" "B3") = some ci) :
    (calculate_interest gw w p r t).1 = Except.ok ⟨si, ci⟩
  ∧ (calculate_interest gw w p r t).2.1 = gw
  ∧ (calculate_interest gw w p r t).2.2.2
      = [Event.writeCell "Input" "B2" p, Event.writeCell "Input" "B3" r,
         Event.writeCell "Input" "B4" t, Event.sleepFor (1 / 2),
         Event.readCell "Output" "B2", Event.readCell "Output" "B3"] := by
  rw [calculate_connected_eq gw w p r t si ci hc hs hin hout hsi hci]
  exact ⟨rfl, rfl, rfl⟩

/-- Witness for C1: the connected Gateway on the example world runs the
exact write/sleep/read sequence and returns the parsed Output pair. -/
theorem C1_calculate_sequence_witness :
    (calculate_interest gwConn wGood 10000 (mkRat 11 2) 3).1
        = Except.ok ⟨1650, mkRat 174241 100⟩
  ∧ (calculate_interest gwConn wGood 10000 (mkRat 11 2) 3).2.1 = gwConn
  ∧ (calculate_interest gwConn wGood 10000 (mkRat 11 2) 3).2.2.2
      = [Event.writeCell "Input" "B2" 10000, Event.writeCell "Input" "B3" (mkRat 11 2),
         Event.writeCell "Input" "B4" 3, Event.sleepFor (1 / 2),
         Event.readCell "Output" "B2", Event.readCell "Output" "B3"] :=
  C1_calculate_sequence gwConn wGood 10000 (mkRat 11 2) 3 1650 (mkRat 174241 100)
    rfl rfl (by decide) (by decide) rfl rfl

/-- C6 counterexample: when credentials authorize but the spreadsheet
cannot be opened, the failed `authenticate` does NOT leave the Gateway
unchanged — the client handle has been assigned — and the next
`calculate_interest` performs no fresh connect attempt (no connect event):
it fails with the not-connected error instead. -/
theorem C6_counterexample :
    (authenticate gwDisc wOpenFail).1 = Except.error GatewayError.authFailureOpen
  ∧ (authenticate gwDisc wOpenFail).2.1 ≠ gwDisc
  ∧ (authenticate gwDisc wOpenFail).2.1 = gwHalf
  ∧ (calculate_interest (authenticate gwDisc wOpenFail).2.1 wOpenFail
        10000 (mkRat 11 2) 3).2.2.2 = []
  ∧ (calculate_interest (authenticate gwDisc wOpenFail).2.1 wOpenFail
        10000 (mkRat 11 2) 3).1 = Except.error GatewayError.notConnected :=
  ⟨rfl, by decide, rfl, rfl, rfl⟩

/-- C6 (amended): a `connect` that fails while loading or authorizing the
credentials leaves the Gateway state unchanged (fully Disconnected), and
the next `calculate_interest` lazy-init check performs a fresh connect
attempt (its first remote event is a connect).  A `connect` that fails when
opening the spreadsheet, after authorization succeeded, leaves the client
handle assigned: the state is changed, and a subsequent `calculate_interest`
skips the lazy connect entirely — it fails with the not-connected error
having made no remote call.  In both cases `get_sheets_service` never
re-attempts a connect once an instance is stored. -/
theorem C6_failed_connect_state (gw : Gateway) (w : World) (p r t : Rat)
    (hcl : gw.client = none) (hsp : gw.spreadsheet = none) :
    (w.credsValid = false →
        (authenticate gw w).1 = Except.error GatewayError.authFailureCreds
      ∧ (authenticate gw w).2.1 = gw
      ∧ (calculate_interest gw w p r t).2.2.2.head? = some Event.connect)
  ∧ (w.credsValid = true → w.sheetOpenable = false →
        (authenticate gw w).1 = Except.error GatewayError.authFailureOpen
      ∧ (authenticate gw w).2.1 = { gw with client := some () }
      ∧ calculate_interest { gw with client := some () } w p r t
          = (Except.error GatewayError.notConnected, { gw with client := some () }, w, []))
  ∧ (∀ (cfg : Config) (g : Gateway),
        get_sheets_service cfg (some g) w = (Except.ok g, some g, [])) := by
  refine ⟨?_, ?_, ?_⟩
  · intro hcv
    refine ⟨by simp [authenticate, hcv], by simp [authenticate, hcv], ?_⟩
    simp [calculate_interest, hcl, authenticate, hcv]
  · intro hcv hop
    refine ⟨by simp [authenticate, hcv, hop], by simp [authenticate, hcv, hop], ?_⟩
    simp [calculate_interest, write_inputs, hsp]
  · intro cfg g
    rfl

/-- Witness for C6: the fresh Gateway against the credentials-failing world
and the open-failing world. -/
theorem C6_failed_connect_state_witness :
    ((authenticate gwDisc wCredsFail).1 = Except.error GatewayError.authFailureCreds
      ∧ (authenticate gwDisc wCredsFail).2.1 = gwDisc
      ∧ (calculate_interest gwDisc wCredsFail 10000 (mkRat 11 2) 3).2.2.2.head?
          = some Event.connect)
  ∧ ((authenticate gwDisc wOpenFail).1 = Except.error GatewayError.authFailureOpen
      ∧ (authenticate gwDisc wOpenFail).2.1 = { gwDisc with client := some () }
      ∧ calculate_interest { gwDisc with client := some () } wOpenFail 10000 (mkRat 11 2) 3
          = (Except.error GatewayError.notConnected,
             { gwDisc with client := some () }, wOpenFail, [])) :=
  ⟨(C6_failed_connect_state gwDisc wCredsFail 10000 (mkRat 11 2) 3 rfl rfl).1 rfl,
   (C6_failed_connect_state gwDisc wOpenFail 10000 (mkRat 11 2) 3 rfl rfl).2.1 rfl rfl⟩

/-- C8 counterexample: process startup (`lifespan`) with a valid
configuration and reachable spreadsheet establishes the connection before
any client request exists: the startup trace already contains a connect
event and the stored singleton is already fully connected. -/
theorem C8_counterexample :
    Event.connect ∈ (startup cfgGood wGood).2
  ∧ (startup cfgGood wGood).1
      = Except.ok (some ⟨"creds.json", "sheet1", some (), some ()⟩) :=
  ⟨by decide, rfl⟩

/-- C8 (amended): the Gateway singleton is created and connected eagerly
during process startup — the lifespan hook runs the init path before any
request arrives, storing a fully connected instance after exactly one
connect event — and every subsequent request reuses that same stored
instance: `get_sheets_service` returns it unchanged with no further remote
event. -/
theorem C8_eager_singleton (cfg : Config) (w : World)
    (hid : ¬ cfg.sheetId = "") (hcf : cfg.credsFileExists = true)
    (hcv : w.credsValid = true) (hop : w.sheetOpenable = true) :
    (startup cfg w).1
        = Except.ok (some ⟨cfg.credsPath, cfg.sheetId, some (), some ()⟩)
  ∧ (startup cfg w).2 = [Event.connect]
  ∧ (∀ (g : Gateway) (w2 : World),
        get_sheets_service cfg (some g) w2 = (Except.ok g, some g, [])) := by
  refine ⟨?_, ?_, fun g w2 => rfl⟩
  · simp [startup, settingsValidate, hid, hcf, get_sheets_service, serviceInit,
      authenticate, hcv, hop]
  · simp [startup, settingsValidate, hid, hcf, get_sheets_service, serviceInit,
      authenticate, hcv, hop]

/-- Witness for C8: the concrete good configuration and world. -/
theorem C8_eager_singleton_witness :
    (startup cfgGood wGood).1
        = Except.ok (some ⟨cfgGood.credsPath, cfgGood.sheetId, some (), some ()⟩)
  ∧ (startup cfgGood wGood).2 = [Event.connect]
  ∧ (∀ (g : Gateway) (w2 : World),
        get_sheets_service cfgGood (some g) w2 = (Except.ok g, some g, [])) :=
  C8_eager_singleton cfgGood wGood (by decide) rfl rfl rfl

/-- C7 counterexample: a request body with a non-positive principal is
answered with HTTP 422 (the FastAPI default request-validation handler), not
the claimed 400; and a Gateway failure (missing Output worksheet) is
answered with HTTP 500 whose body has only an `error` field (the
`http_exception_handler` shape), not the claimed error-plus-detail shape. -/
theorem C7_counterexample :
    (route_calculate cfgGood (some gwConn) wGood (-1) (mkRat 11 2) 3).1.statusCode = 422
  ∧ (route_calculate cfgGood (some gwConn) wNoOutput 100 (mkRat 11 2) 3).1
      = ⟨500, ResponseBody.errorOnly
          "Calculation failed: Worksheet \x27Output\x27 not found. Please ensure the sheet exists."⟩ :=
  ⟨rfl, rfl⟩

/-- C7 (amended): a request body failing validation is rejected before the
handler runs with HTTP 422 carrying the framework default per-field
validation detail — it never reaches the Gateway and never maps to 500 —
while every Gateway failure on a validated body maps to HTTP 500 with a
body of shape error-only, the message embedding the cause
("Calculation failed: ..."); no remote failure maps to 400. -/
theorem C7_status_mapping (cfg : Config) (st : AppState) (w : World)
    (p r t : Rat) :
    (¬ (fieldErrors p r t).isEmpty →
        route_calculate cfg st w p r t
          = (⟨422, ResponseBody.validationDetail (fieldErrors p r t)⟩, st, w, []))
  ∧ (∀ (gw : Gateway) (e : GatewayError),
        (fieldErrors p r t).isEmpty → st = some gw →
        (calculate_interest gw w p r t).1 = Except.error e →
        (route_calculate cfg st w p r t).1
          = ⟨500, ResponseBody.errorOnly ("Calculation failed: " ++ GatewayError.message e)⟩) := by
  refine ⟨?_, ?_⟩
  · intro hv
    simp [route_calculate, hv]
  · intro gw e hv hst herr
    subst hst
    simp [route_calculate, hv, get_sheets_service, herr]

/-- Witness for C7 (amended): the negative-principal body yields the 422
validation response, and the missing-Output world yields the 500 error-only
response. -/
theorem C7_status_mapping_witness :
    route_calculate cfgGood (some gwConn) wGood (-1) (mkRat 11 2) 3
      = (⟨422, ResponseBody.validationDetail (fieldErrors (-1) (mkRat 11 2) 3)⟩,
         some gwConn, wGood, [])
  ∧ (route_calculate cfgGood (some gwConn) wNoOutput 100 (mkRat 11 2) 3).1
      = ⟨500, ResponseBody.errorOnly
          ("Calculation failed: "
            ++ GatewayError.message (GatewayError.structureError "Output"))⟩ :=
  ⟨(C7_status_mapping cfgGood (some gwConn) wGood (-1) (mkRat 11 2) 3).1 (by decide),
   (C7_status_mapping cfgGood (some gwConn) wNoOutput 100 (mkRat 11 2) 3).2
      gwConn (GatewayError.structureError "Output") (by decide) rfl rfl⟩

/-- C9: on a successful calculation the response echoes principal, rate and
time exactly as received, and its interest fields are the values parsed
from the Output sheet cells rounded to 2 decimal places. -/
theorem C9_response_echo_round (cfg : Config) (w : World) (gw : Gateway)
    (p r t si ci : Rat)
    (hval : (fieldErrors p r t).isEmpty)
    (hc : gw.client = some ()) (hs : gw.spreadsheet = some ())
    (hin : "Input" ∈ w.sheet.sheetNames) (hout : "Output" ∈ w.sheet.sheetNames)
    (hsi : parseCell (w.sheet.cells "Output" "B2") = some si)
    (hci : parseCell (w.sheet.cells "Output" "B3") = some ci) :
    (route_calculate cfg (some gw) w p r t).1
      = ⟨200, ResponseBody.calcOk (round2 si) (round2 ci) p r t⟩ := by
  simp [route_calculate, hval, get_sheets_service,
    calculate_connected_eq gw w p r t si ci hc hs hin hout hsi hci]

/-- Witness for C9: the specification example request against the example
Output cells (1650 and 1742.41) echoes 10000, 5.5, 3 and returns the
rounded cell values. -/
theorem C9_response_echo_round_witness :
    (route_calculate cfgGood (some gwConn) wGood 10000 (mkRat 11 2) 3).1
      = ⟨200, ResponseBody.calcOk (round2 1650) (round2 (mkRat 174241 100))
          10000 (mkRat 11 2) 3⟩
  ∧ round2 1650 = 1650
  ∧ round2 (mkRat 174241 100) = mkRat 174241 100 :=
  ⟨C9_response_echo_round cfgGood wGood gwConn 10000 (mkRat 11 2) 3 1650 (mkRat 174241 100)
      (by decide) rfl rfl (by decide) (by decide) rfl rfl,
   by decide, by decide⟩

end InterestCalc
